import Mathlib

/-!
Verification of `src/python/transcribe_whisper.py`, an 18-line command-line
script:

```
if len(sys.argv) < 2:
    print("Usage: python transcribe_whisper.py <audio_file_path>")
    sys.exit(1)
audio_path = sys.argv[1]
if not os.path.exists(audio_path):
    print(f"File not found: " + audio_path)
    sys.exit(1)
model = whisper.load_model("base")
result = model.transcribe(audio_path)
print(result["text"].strip())
```

Shallow embedding conventions:
* The filesystem is a map `String → Option String` (path to contents);
  `os.path.exists p` is `(fs p).isSome`.
* The external whisper library is an oracle `transcribe : String → String`
  giving, for an audio path, the `result["text"]` field of the model output.
* Each Python `print(s)` appends one element `s` to the `output` list; the
  trailing newline that `print` emits is implicit in the list structure
  (one element = one newline-terminated write to standard output).
* `sys.exit(1)` / falling off the end of the script give `exitCode` 1 / 0.
* The run additionally records whether `whisper.load_model` was reached
  (`modelLoaded`, `modelVariant`) and which path, if any, was submitted to
  `model.transcribe` (`transcribedPath`).
* `run` returns the final filesystem alongside the result, so that the
  absence of filesystem effects of the tool itself is a provable statement
  rather than a convention.
-/

/-- Environment of one invocation: the filesystem (path ↦ file contents)
and the external speech model's text output per audio path. -/
structure Env where
  fs : String → Option String
  transcribe : String → String

/-- Observable outcome of one invocation of the script. -/
structure RunResult where
  output : List String
  exitCode : Nat
  modelLoaded : Bool
  modelVariant : Option String
  transcribedPath : Option String
  deriving Repr, DecidableEq

/-- The literal usage string of line 6 of the script. -/
def usageMsg : String := "Usage: python transcribe_whisper.py <audio_file_path>"

/-- `os.path.exists` over the embedded filesystem. -/
def osPathExists (fs : String → Option String) (p : String) : Bool :=
  (fs p).isSome

/-- Python `str.isspace` on a single character: the characters that
`str.strip()` (no arguments) removes. -/
def pyIsSpace (c : Char) : Bool :=
  c = ' ' || c = '\t' || c = '\n' || c = '\r' || c = '\x0b' || c = '\x0c' ||
  c = '\x1c' || c = '\x1d' || c = '\x1e' || c = '\x1f' || c = '\x85' ||
  c = '\xa0' || c = '\u1680' || ('\u2000' ≤ c && c ≤ '\u200A') ||
  c = '\u2028' || c = '\u2029' || c = '\u202F' || c = '\u205F' || c = '\u3000'

/-- Python `str.strip()` with no arguments: drop leading and trailing
whitespace characters. -/
def pyStrip (s : String) : String :=
  String.mk (((s.toList.dropWhile pyIsSpace).reverse.dropWhile pyIsSpace).reverse)

/-- `sys.argv[1]`, read only after the length check has passed (so the
default is never used on the paths the script takes). -/
def arg1 (argv : List String) : String := argv.getD 1 ""

/-- The whole script, lines 5–18, as a function of the environment and
`sys.argv` (element 0 is the invocation name, as in Python). -/
def run (env : Env) (argv : List String) : RunResult × (String → Option String) :=
  if argv.length < 2 then
    ({ output := [usageMsg], exitCode := 1, modelLoaded := false,
       modelVariant := none, transcribedPath := none }, env.fs)
  else
    let audio_path := arg1 argv
    if osPathExists env.fs audio_path = false then
      ({ output := ["File not found: " ++ audio_path], exitCode := 1,
         modelLoaded := false, modelVariant := none, transcribedPath := none },
       env.fs)
    else
      ({ output := [pyStrip (env.transcribe audio_path)], exitCode := 0,
         modelLoaded := true, modelVariant := some "base",
         transcribedPath := some audio_path }, env.fs)

/-- A concrete environment used by the witnesses: one file `clip.wav`
exists, and the model transcribes everything to a padded string. -/
def envW : Env :=
  { fs := fun p => if p = "clip.wav" then some "RIFF" else none
    transcribe := fun _ => "  hello world  \n" }

/-- A concrete environment whose model returns a whitespace-only
transcript. -/
def envBlank : Env :=
  { fs := fun p => if p = "clip.wav" then some "RIFF" else none
    transcribe := fun _ => " \n " }

/-- C1: with at least one path argument naming an existing file, the script
loads the "base" model, transcribes that file, and prints the stripped text
field followed by a newline, exiting with status 0. -/
theorem run_success_path (env : Env) (argv : List String)
    (h2 : 2 ≤ argv.length) (hex : osPathExists env.fs (arg1 argv) = true) :
    (run env argv).1.modelLoaded = true ∧
    (run env argv).1.modelVariant = some "base" ∧
    (run env argv).1.transcribedPath = some (arg1 argv) ∧
    (run env argv).1.output = [pyStrip (env.transcribe (arg1 argv))] ∧
    (run env argv).1.exitCode = 0 := by
  unfold run
  rw [if_neg (by omega)]
  simp only [hex]
  simp

/-- Witness for C1 at `argv = ["prog", "clip.wav"]` in `envW`. -/
theorem run_success_path_witness :
    (run envW ["prog", "clip.wav"]).1.modelVariant = some "base" ∧
    (run envW ["prog", "clip.wav"]).1.output = ["hello world"] ∧
    (run envW ["prog", "clip.wav"]).1.exitCode = 0 := by
  have h := run_success_path envW ["prog", "clip.wav"] (by decide) (by decide)
  exact ⟨h.2.1, by rw [h.2.2.2.1]; decide, h.2.2.2.2⟩

/-- C2: invoked with only the program name, the script prints the literal
usage string, exits with code 1, and never loads the model or attempts any
transcription. -/
theorem run_usage_error (env : Env) (nm : String) :
    (run env [nm]).1.output = [usageMsg] ∧
    (run env [nm]).1.exitCode = 1 ∧
    (run env [nm]).1.modelLoaded = false ∧
    (run env [nm]).1.transcribedPath = none := by
  unfold run
  simp

/-- C3: when the first path argument names no existing filesystem entry,
the script prints "File not found: <path>", exits with code 1, and never
loads the model or attempts any transcription. -/
theorem run_missing_file (env : Env) (argv : List String)
    (h2 : 2 ≤ argv.length) (hne : osPathExists env.fs (arg1 argv) = false) :
    (run env argv).1.output = ["File not found: " ++ arg1 argv] ∧
    (run env argv).1.exitCode = 1 ∧
    (run env argv).1.modelLoaded = false ∧
    (run env argv).1.transcribedPath = none := by
  unfold run
  rw [if_neg (by omega)]
  simp only [hne]
  simp

/-- Witness for C3 at `argv = ["prog", "nonexistent.wav"]` in `envW`. -/
theorem run_missing_file_witness :
    (run envW ["prog", "nonexistent.wav"]).1.output =
      ["File not found: nonexistent.wav"] ∧
    (run envW ["prog", "nonexistent.wav"]).1.exitCode = 1 ∧
    (run envW ["prog", "nonexistent.wav"]).1.modelLoaded = false := by
  have h := run_missing_file envW ["prog", "nonexistent.wav"] (by decide) (by decide)
  exact ⟨h.1, h.2.1, h.2.2.1⟩

/-- C4: on the success path, the printed line is exactly the model's
transcript with leading and trailing whitespace removed; in particular a
transcript `"  hello world  \n"` prints as `"hello world"`. -/
theorem run_strips_transcript (env : Env) (argv : List String)
    (h2 : 2 ≤ argv.length) (hex : osPathExists env.fs (arg1 argv) = true) :
    (run env argv).1.output = [pyStrip (env.transcribe (arg1 argv))] ∧
    pyStrip "  hello world  \n" = "hello world" := by
  refine ⟨?_, by decide⟩
  unfold run
  rw [if_neg (by omega)]
  simp only [hex]
  simp

/-- Witness for C4: in `envW` the model answers `"  hello world  \n"` and
the script prints `"hello world"`. -/
theorem run_strips_transcript_witness :
    (run envW ["prog", "clip.wav"]).1.output = ["hello world"] := by
  have h := run_strips_transcript envW ["prog", "clip.wav"] (by decide) (by decide)
  rw [h.1]; decide

/-- C7: in every run whatsoever, the only model variant ever requested from
the speech library is the literal `"base"`: either the model is not loaded
at all, or the variant is `"base"`, independently of the command line. -/
theorem run_variant_always_base (env : Env) (argv : List String) :
    (run env argv).1.modelVariant = none ∨
    (run env argv).1.modelVariant = some "base" := by
  unfold run
  split
  · simp
  · dsimp only
    split
    · simp
    · simp

/-- C8: the tool itself performs no filesystem effect: the filesystem after
any run is the one it started with (so the input file is untouched and no
file was created or deleted by the tool), and its only output channel is
the standard-output list of `RunResult`. -/
theorem run_preserves_fs (env : Env) (argv : List String) :
    (run env argv).2 = env.fs := by
  unfold run
  split
  · rfl
  · dsimp only
    split
    · rfl
    · rfl

/-- C9: arguments after the first path argument are never read: two
invocations with the same program name and first path argument but
arbitrary different tails produce identical results. -/
theorem run_ignores_extra_args (env : Env) (nm p : String)
    (rest₁ rest₂ : List String) :
    run env (nm :: p :: rest₁) = run env (nm :: p :: rest₂) := by
  have h₁ : ¬((nm :: p :: rest₁).length < 2) := by simp
  have h₂ : ¬((nm :: p :: rest₂).length < 2) := by simp
  unfold run arg1
  rw [if_neg h₁, if_neg h₂]
  simp only [List.getD_cons_succ, List.getD_cons_zero]

/-- C10: the usage message is the fixed literal
`"Usage: python transcribe_whisper.py <audio_file_path>"`, containing the
hardcoded name `python transcribe_whisper.py`; it does not depend on the
actual invocation name (argv[0]), and is the same for every invocation with
no path argument, including an empty argv. -/
theorem run_usage_is_fixed_literal (env : Env) (nm : String) :
    (run env [nm]).1.output =
      ["Usage: python transcribe_whisper.py <audio_file_path>"] ∧
    (run env []).1.output =
      ["Usage: python transcribe_whisper.py <audio_file_path>"] := by
  constructor
  · unfold run; simp; rfl
  · unfold run; simp; rfl

/-- `pyStrip` gives the empty string exactly when every character of the
input is Python whitespace. -/
theorem pyStrip_eq_empty_iff (s : String) :
    pyStrip s = "" ↔ ∀ c ∈ s.toList, pyIsSpace c = true := by
  unfold pyStrip
  have hmk : ∀ l : List Char, String.mk l = String.mk [] ↔ l = [] := by
    intro l
    constructor
    · intro h; exact congrArg String.data h
    · intro h; rw [h]
  rw [show ("" : String) = String.mk [] from rfl, hmk]
  simp only [List.reverse_eq_nil_iff, List.dropWhile_eq_nil_iff, List.mem_reverse]
  constructor
  · intro h c hc
    rw [← List.takeWhile_append_dropWhile (p := pyIsSpace) (l := s.toList)] at hc
    rcases List.mem_append.mp hc with h₁ | h₂
    · exact List.mem_takeWhile_imp h₁
    · exact h c h₂
  · intro h c hc
    exact h c ((List.dropWhile_sublist pyIsSpace).subset hc)

/-- Counterexample to C6 as stated: with an existing file and a model whose
transcript is only whitespace, the script exits 0 but prints the empty
string, not a non-empty one. -/
theorem run_blank_transcript_counterexample :
    (run envBlank ["prog", "clip.wav"]).1.exitCode = 0 ∧
    (run envBlank ["prog", "clip.wav"]).1.output = [""] := by
  decide

/-- C6 amended: with a valid, existing audio file the script exits 0 and
prints the trimmed transcript; the printed string is non-empty exactly when
the model's transcript contains at least one non-whitespace character (a
whitespace-only transcript prints an empty line). -/
theorem run_success_trimmed_output (env : Env) (argv : List String)
    (h2 : 2 ≤ argv.length) (hex : osPathExists env.fs (arg1 argv) = true) :
    (run env argv).1.exitCode = 0 ∧
    (run env argv).1.output = [pyStrip (env.transcribe (arg1 argv))] ∧
    (pyStrip (env.transcribe (arg1 argv)) ≠ "" ↔
      ∃ c ∈ (env.transcribe (arg1 argv)).toList, pyIsSpace c = false) := by
  refine ⟨?_, ?_, ?_⟩
  · unfold run
    rw [if_neg (by omega)]
    simp only [hex]
    simp
  · unfold run
    rw [if_neg (by omega)]
    simp only [hex]
    simp
  · rw [ne_eq, pyStrip_eq_empty_iff]
    push_neg
    simp only [Bool.not_eq_true]

/-- Witness for C6 amended at `envW`: exit code 0 and the non-whitespace
transcript prints non-empty. -/
theorem run_success_trimmed_output_witness :
    (run envW ["prog", "clip.wav"]).1.exitCode = 0 ∧
    (run envW ["prog", "clip.wav"]).1.output = ["hello world"] := by
  have h := run_success_trimmed_output envW ["prog", "clip.wav"] (by decide) (by decide)
  exact ⟨h.1, by rw [h.2.1]; decide⟩

/-- One observable step of the script, for the temporal-ordering claim. -/
inductive Event where
  | checkArgs : Event
  | checkFile : String → Event
  | loadModel : String → Event
  | transcribeEv : String → Event
  | printEv : String → Event
  | exitEv : Nat → Event
  deriving Repr, DecidableEq

/-- The ordered event trace of one run: the argument-count check of line 5,
then the existence check of line 11, then model load (line 15),
transcription (line 16) and printing (line 18), with the exits of lines 7
and 13 in the failure branches. -/
def trace (env : Env) (argv : List String) : List Event :=
  if argv.length < 2 then
    [Event.checkArgs, Event.printEv usageMsg, Event.exitEv 1]
  else
    let audio_path := arg1 argv
    if osPathExists env.fs audio_path = false then
      [Event.checkArgs, Event.checkFile audio_path,
       Event.printEv ("File not found: " ++ audio_path), Event.exitEv 1]
    else
      [Event.checkArgs, Event.checkFile audio_path, Event.loadModel "base",
       Event.transcribeEv audio_path,
       Event.printEv (pyStrip (env.transcribe audio_path)), Event.exitEv 0]

/-- `e₁` occurs at a strictly earlier position than `e₂` in the trace. -/
def occursBefore (t : List Event) (e₁ e₂ : Event) : Prop :=
  ∃ i j, i < j ∧ t.get? i = some e₁ ∧ t.get? j = some e₂

/-- C5: in every run the argument check comes first; the model is loaded
only after both checks pass (so never in a failing run), strictly after the
file check; and transcription happens only on the checked path, strictly
after the model load and strictly before the printing of its result. -/
theorem trace_step_order (env : Env) (argv : List String) :
    (trace env argv).get? 0 = some Event.checkArgs ∧
    (∀ v, Event.loadModel v ∈ trace env argv →
      2 ≤ argv.length ∧ osPathExists env.fs (arg1 argv) = true ∧
      occursBefore (trace env argv) Event.checkArgs
        (Event.checkFile (arg1 argv)) ∧
      occursBefore (trace env argv) (Event.checkFile (arg1 argv))
        (Event.loadModel v)) ∧
    (∀ p, Event.transcribeEv p ∈ trace env argv →
      p = arg1 argv ∧ 2 ≤ argv.length ∧ osPathExists env.fs (arg1 argv) = true ∧
      occursBefore (trace env argv) (Event.loadModel "base")
        (Event.transcribeEv p) ∧
      occursBefore (trace env argv) (Event.transcribeEv p)
        (Event.printEv (pyStrip (env.transcribe p)))) := by
  by_cases hlen : argv.length < 2
  · unfold trace
    rw [if_pos hlen]
    refine ⟨rfl, ?_, ?_⟩
    · intro v hv; simp at hv
    · intro p hp; simp at hp
  · by_cases hex : osPathExists env.fs (arg1 argv) = false
    · unfold trace
      rw [if_neg hlen]
      dsimp only
      rw [if_pos hex]
      refine ⟨rfl, ?_, ?_⟩
      · intro v hv; simp at hv
      · intro p hp; simp at hp
    · unfold trace
      rw [if_neg hlen]
      dsimp only
      rw [if_neg hex]
      refine ⟨rfl, ?_, ?_⟩
      · intro v hv
        have hv' : v = "base" := by simpa using hv
        subst hv'
        exact ⟨by omega, by simpa using hex,
          ⟨0, 1, by omega, rfl, rfl⟩, ⟨1, 2, by omega, rfl, rfl⟩⟩
      · intro p hp
        have hp' : p = arg1 argv := by simpa using hp
        subst hp'
        exact ⟨rfl, by omega, by simpa using hex,
          ⟨2, 3, by omega, rfl, rfl⟩, ⟨3, 4, by omega, rfl, rfl⟩⟩

/-- Witness for C5 at `envW` and `["prog", "clip.wav"]`: the file check
occurs strictly before the model load. -/
theorem trace_step_order_witness :
    occursBefore (trace envW ["prog", "clip.wav"])
      (Event.checkFile "clip.wav") (Event.loadModel "base") := by
  have h := trace_step_order envW ["prog", "clip.wav"]
  have hm : Event.loadModel "base" ∈ trace envW ["prog", "clip.wav"] := by decide
  exact (h.2.1 "base" hm).2.2.2
